import Mathlib

/-!
Verification development for a Flask media-download service (`app.py`).

The service exposes `POST /download`: it validates the JSON body, creates a
temporary workspace directory under a shared download root, invokes yt-dlp
(`download_with_ytdlp`) to fetch the media, checks the declared output path
exists, computes metadata (size, MIME type), arms two deferred deletion
timers via `schedule_delete` (artifact file after 15 s, workspace directory
after 20 s), and streams the file back with `X-Filename` / `X-Size-Bytes` /
`X-Mime-Type` headers.

The embedding below models Python strings/paths as lists of characters, the
filesystem as the list of existing paths, and the external collaborators
(yt-dlp, `mimetypes.guess_type`, `os.path.getsize`, `urllib.parse.quote`,
`tempfile.mkdtemp`) as oracle inputs.  The request handler is a pure
function from the request and the oracles to a response, a final filesystem
state, and a trace of the side-effecting events it performed, in order.
-/

namespace App

/-- Python strings (and paths) modelled as lists of characters. -/
abbrev PyStr := List Char

/-- Filesystem state: the list of paths that currently exist. -/
abbrev FS := List PyStr

/-- POSIX path separator. -/
def sep : Char := '/'

/-- `os.path.join a b` for a single join step. -/
def pathJoin (d f : PyStr) : PyStr := d ++ sep :: f

/-- `os.path.exists` over the modelled filesystem. -/
def osPathExists (fs : FS) (p : PyStr) : Bool := decide (p ∈ fs)

/-- Index of the last occurrence of `c` in the string, if any
(Python `str.rfind`, with `none` standing for `-1`). -/
def rfindIdx (c : Char) : PyStr → Option Nat
  | [] => none
  | x :: xs =>
    match rfindIdx c xs with
    | some j => some (j + 1)
    | none => if x = c then some 0 else none

/-- Whether every character of `p` at positions `[i, j)` equals `'.'`
(the scan performed by CPython `splitext` between the basename start and
the final dot). -/
def allDotsBetween (p : PyStr) (i j : Nat) : Bool :=
  ((p.drop i).take (j - i)).all (fun c => c = '.')

/-- `os.path.splitext`, following CPython `genericpath._splitext`: split at
the last dot of the basename, unless every character between the basename
start and that dot is itself a dot (leading-dot files keep their name). -/
def splitext (p : PyStr) : PyStr × PyStr :=
  let sepIdx := rfindIdx sep p
  match rfindIdx '.' p with
  | none => (p, [])
  | some dotIndex =>
    let afterSep := match sepIdx with
      | none => true
      | some s => s < dotIndex
    if afterSep then
      let filenameIndex := match sepIdx with
        | none => 0
        | some s => s + 1
      if allDotsBetween p filenameIndex dotIndex then (p, [])
      else (p.take dotIndex, p.drop dotIndex)
    else (p, [])

/-- Python `str.endswith`. -/
def endswith (p suffix : PyStr) : Bool := suffix.isSuffixOf p

/-- The `".mp4"` literal used by `download_with_ytdlp`. -/
def mp4ext : PyStr := ['.', 'm', 'p', '4']

/-- `os.path.basename` (CPython posixpath: everything after the last
separator). -/
def basename (p : PyStr) : PyStr :=
  match rfindIdx sep p with
  | none => p
  | some i => p.drop (i + 1)

/-- Whether `p` lies strictly inside directory `d`. -/
def underDir (d p : PyStr) : Bool := (d ++ [sep]).isPrefixOf p

/-- `shutil.rmtree d` over the modelled filesystem: removes `d` and every
path inside it. -/
def rmtree (d : PyStr) (fs : FS) : FS :=
  fs.filter (fun p => !(p == d || underDir d p))

/-- Whether every character of the name encodes in latin-1
(`str.encode("latin-1")` succeeds exactly on code points below 256). -/
def isLatin1 (s : PyStr) : Bool := s.all (fun c => c.toNat < 256)

/-- Python `mime_type or "application/octet-stream"`: `or` takes the
right operand when the left is falsy (`None` or the empty string). -/
def pyOrStr (x : Option String) (y : String) : String :=
  match x with
  | none => y
  | some s => if s = "" then y else s

/-- Outcome of the yt-dlp call for one request, as seen by the caller of
`download_with_ytdlp`: `extract_info` either raises
`yt_dlp.utils.DownloadError` (after exhausting its internal `retries: 3`
budget), raises some other exception, or succeeds — in which case
`prepare_filename` yields `prepared` and the extractor has written the
listed files into the workspace. -/
inductive FetchOutcome where
  | downloadError (msg : String)
  | otherError (msg : String)
  | ok (prepared : PyStr) (written : List PyStr)
deriving DecidableEq

/-- Exception kind propagated out of `download_with_ytdlp`. -/
inductive DLErr where
  | downloadError (msg : String)
  | other (msg : String)
deriving DecidableEq

/-- The path returned by `download_with_ytdlp` on success: lines 71–73 of
`app.py` force a `.mp4` extension onto the `prepare_filename` result,
rewriting the string (never touching the file on disk). -/
def forceMp4 (downloaded : PyStr) : PyStr :=
  if endswith downloaded mp4ext then downloaded
  else (splitext downloaded).1 ++ mp4ext

/-- `download_with_ytdlp url temp_dir` (lines 41–82): runs yt-dlp, then
returns `prepare_filename`'s path with the extension forced to `.mp4`;
exceptions from `extract_info` propagate to the caller. -/
def download_with_ytdlp (outcome : FetchOutcome) : Except DLErr PyStr :=
  match outcome with
  | .downloadError m => .error (.downloadError m)
  | .otherError m => .error (.other m)
  | .ok prepared _ => .ok (forceMp4 prepared)

/-- Files written into the filesystem by the yt-dlp call. -/
def fetchWritten (outcome : FetchOutcome) : List PyStr :=
  match outcome with
  | .ok _ written => written
  | _ => []

/-- One observable side-effecting step of the `/download` handler, in
program order. -/
inductive Event where
  | mkdtemp (dir : PyStr)
  | providerCall
  | rmtreeSync (dir : PyStr)
  | computeMeta (size : Nat) (mime : String)
  | scheduleTask (path : PyStr) (delay : Nat) (is_dir : Bool)
deriving DecidableEq

/-- Whether an event arms a deferred cleanup task. -/
def Event.isSchedule : Event → Bool
  | .scheduleTask _ _ _ => true
  | _ => false

/-- Whether an event is the metadata computation (size + MIME type read
from the still-present file). -/
def Event.isMeta : Event → Bool
  | .computeMeta _ _ => true
  | _ => false

/-- HTTP response of the `/download` route. `fileResponse` carries the
served path, the download name, the response `mimetype`, and the
`X-Filename`, `X-Size-Bytes`, `X-Mime-Type` header values. -/
inductive Resp where
  | badRequest (err : String)
  | serverError (err : String)
  | fileResponse (path : PyStr) (downloadName : PyStr) (mimetype : String)
      (xFilename : PyStr) (xSizeBytes : Nat) (xMimeType : String)
deriving DecidableEq

/-- External collaborators of one `/download` request: the fresh directory
allocated by `tempfile.mkdtemp`, the behaviour of yt-dlp on this URL, the
`mimetypes.guess_type` result for the downloaded path (`none` = no guess),
`os.path.getsize`, and `urllib.parse.quote`. -/
structure Oracles where
  tempDir : PyStr
  fetch : FetchOutcome
  guess : Option String
  getsize : PyStr → Nat
  quoteFn : PyStr → PyStr

/-- The `/download` route handler `download_video` (lines 87–149).
`reqUrl` is `data.get("url") if data else None`.  Returns the HTTP
response, the filesystem at the moment of return, and the ordered trace of
side-effecting events.  Deferred deletions armed by `schedule_delete`
appear as `scheduleTask` events: their timers (positive 15 s / 20 s
delays) have not fired at the moment of return. -/
def download_video (reqUrl : Option String) (o : Oracles) (fs : FS) :
    Resp × FS × List Event :=
  let urlOk := match reqUrl with
    | none => false
    | some u => u ≠ ""
  if urlOk then
    let fs1 := o.tempDir :: fs
    let ev1 := [Event.mkdtemp o.tempDir, Event.providerCall]
    match download_with_ytdlp o.fetch with
    | .error (.downloadError msg) =>
        (.serverError ("DownloadError: " ++ msg), rmtree o.tempDir fs1,
         ev1 ++ [Event.rmtreeSync o.tempDir])
    | .error (.other msg) =>
        (.serverError ("Unexpected error: " ++ msg), rmtree o.tempDir fs1,
         ev1 ++ [Event.rmtreeSync o.tempDir])
    | .ok downloaded =>
        let fs2 := fs1 ++ fetchWritten o.fetch
        if osPathExists fs2 downloaded then
          let fileSize := o.getsize downloaded
          let mimeType := pyOrStr o.guess "application/octet-stream"
          let originalName := basename downloaded
          let safeFilename :=
            if isLatin1 originalName then originalName else o.quoteFn originalName
          (.fileResponse downloaded originalName mimeType safeFilename
             fileSize mimeType,
           fs2,
           ev1 ++ [Event.computeMeta fileSize mimeType,
                   Event.scheduleTask downloaded 15 false,
                   Event.scheduleTask o.tempDir 20 true])
        else
          (.serverError "File missing after download", rmtree o.tempDir fs2,
           ev1 ++ [Event.rmtreeSync o.tempDir])
  else
    (.badRequest "Missing field 'url' in JSON", fs, [])

/-- A log line emitted by the deferred deletion callback. -/
inductive LogEntry where
  | cleanupFolderDeleted (p : PyStr)
  | cleanupFileDeleted (p : PyStr)
  | cleanupError (p : PyStr) (e : String)
deriving DecidableEq

/-- `os.remove`: may raise `OSError` (modelled by a set `failing` of paths
whose removal fails, e.g. for permissions); on success erases the path. -/
def osRemove (failing : List PyStr) (p : PyStr) (fs : FS) :
    Except String FS :=
  if p ∈ failing then .error "OSError" else .ok (fs.filter (fun q => q ≠ p))

/-- The body of the `_delete` closure in `schedule_delete` (lines 26–33),
before the surrounding `try`/`except`: `shutil.rmtree(path,
ignore_errors=True)` for directories (never raises), otherwise
`os.remove(path)` guarded by `os.path.exists` (may raise). -/
def deleteBody (failing : List PyStr) (is_dir : Bool) (p : PyStr)
    (fs : FS) : Except String (FS × List LogEntry) :=
  if is_dir then .ok (rmtree p fs, [.cleanupFolderDeleted p])
  else if osPathExists fs p then
    match osRemove failing p fs with
    | .error e => .error e
    | .ok fs2 => .ok (fs2, [.cleanupFileDeleted p])
  else .ok (fs, [])

/-- The `_delete` closure (lines 26–35): runs `deleteBody` inside
`try`/`except Exception`, turning any raised error into a
`[CLEANUP ERROR]` log line and leaving the filesystem as the failed
operation left it.  Its return type carries no exception: nothing
propagates to whoever invokes the timer callback. -/
def deleteAction (failing : List PyStr) (is_dir : Bool) (p : PyStr)
    (fs : FS) : FS × List LogEntry :=
  match deleteBody failing is_dir p fs with
  | .ok r => r
  | .error e => (fs, [.cleanupError p e])

/-- A one-shot `threading.Timer` armed by `schedule_delete`: the deletion
parameters plus whether the timer has already fired. -/
structure PendingTimer where
  delay : Nat
  path : PyStr
  is_dir : Bool
  fired : Bool
deriving DecidableEq

/-- `schedule_delete path delay is_dir` (lines 24–37): arms a
`threading.Timer` and returns at once.  The filesystem is returned
untouched — the deletion is deferred to the timer — together with the
armed, not-yet-fired timer. -/
def schedule_delete (path : PyStr) (delay : Nat) (is_dir : Bool)
    (fs : FS) : FS × PendingTimer :=
  (fs, ⟨delay, path, is_dir, false⟩)

/-- Firing a timer: a `threading.Timer` invokes its callback only once, so
a timer that has already fired does nothing; otherwise it runs
`deleteAction` and is marked fired. -/
def fireTimer (failing : List PyStr) (t : PendingTimer) (fs : FS) :
    PendingTimer × FS × List LogEntry :=
  if t.fired then (t, fs, [])
  else
    let r := deleteAction failing t.is_dir t.path fs
    ({ t with fired := true }, r.1, r.2)

/-- Wall-clock instant at which a timer armed at `armTime` with delay
`delay` fires. -/
def cleanupFireTime (armTime delay : Nat) : Nat := armTime + delay

/-- Wall-clock instant at which a streamed delivery started at
`startTime` and lasting `duration` completes.  `download_video` arms its
cleanup timers before the response is even built, so `duration` is
unconstrained by anything the handler does. -/
def deliveryEndTime (startTime duration : Nat) : Nat := startTime + duration

/-! ## Helper lemmas -/

theorem forceMp4_endswith (p : PyStr) : endswith (forceMp4 p) mp4ext = true := by
  unfold forceMp4
  by_cases h : endswith p mp4ext = true
  · simp [h]
  · rw [if_neg h]
    unfold endswith
    rw [List.isSuffixOf_iff_suffix]
    exact List.suffix_append _ _

theorem not_mem_rmtree_self (d : PyStr) (fs : FS) : d ∉ rmtree d fs := by
  intro hmem
  rcases List.mem_filter.mp hmem with ⟨_, hb⟩
  simp at hb

theorem not_mem_rmtree_under {d p : PyStr} (fs : FS)
    (h : underDir d p = true) : p ∉ rmtree d fs := by
  intro hmem
  rcases List.mem_filter.mp hmem with ⟨_, hb⟩
  simp [h] at hb

theorem pyOrStr_ne_empty (g : Option String) {d : String} (hd : d ≠ "") :
    pyOrStr g d ≠ "" := by
  cases g with
  | none => simp [pyOrStr, hd]
  | some s =>
    by_cases hs : s = ""
    · simp [pyOrStr, hs, hd]
    · simp [pyOrStr, hs]

/-- Inversion of the success path of `download_video`: a `fileResponse`
return pins down the request shape, the fetch outcome, the served path,
the metadata, the final filesystem and the full event trace. -/
theorem download_video_success_inv {req : Option String} {o : Oracles}
    {fs : FS} {p n : PyStr} {m : String} {sf : PyStr} {sz : Nat} {xm : String}
    (h : (download_video req o fs).1 = .fileResponse p n m sf sz xm) :
    ∃ u prepared written,
      req = some u ∧ u ≠ "" ∧ o.fetch = .ok prepared written ∧
      p = forceMp4 prepared ∧
      osPathExists (o.tempDir :: (fs ++ written)) p = true ∧
      n = basename p ∧
      m = pyOrStr o.guess "application/octet-stream" ∧
      xm = m ∧ sz = o.getsize p ∧
      (download_video req o fs).2.1 = o.tempDir :: (fs ++ written) ∧
      (download_video req o fs).2.2 =
        [Event.mkdtemp o.tempDir, Event.providerCall,
         Event.computeMeta sz m,
         Event.scheduleTask p 15 false,
         Event.scheduleTask o.tempDir 20 true] := by
  cases req with
  | none => simp [download_video] at h
  | some u =>
    by_cases hu : u = ""
    · simp [download_video, hu] at h
    · cases hf : o.fetch with
      | downloadError msg =>
        simp [download_video, download_with_ytdlp, hu, hf] at h
      | otherError msg =>
        simp [download_video, download_with_ytdlp, hu, hf] at h
      | ok prepared written =>
        by_cases hex :
            osPathExists (o.tempDir :: (fs ++ written)) (forceMp4 prepared) = true
        · refine ⟨u, prepared, written, rfl, hu, rfl, ?_⟩
          simp only [download_video, download_with_ytdlp, hu, hf, fetchWritten,
            List.cons_append, hex, ne_eq, not_false_iff, if_true] at h ⊢
          simp only [decide_True, if_true] at h ⊢
          simp at h
          obtain ⟨h1, h2, h3, h4, h5, h6⟩ := h
          subst h1 h2 h3 h4 h6
          simp_all
        · simp only [download_video, download_with_ytdlp, hu, hf, fetchWritten,
            List.cons_append, ne_eq, not_false_iff, if_true] at h
          rw [if_neg hex] at h
          simp at h

/-- Reduction of `download_video` on the path where yt-dlp raises
`DownloadError` after its internal retries are exhausted. -/
theorem download_video_downloadError {u msg : String} {o : Oracles} {fs : FS}
    (hu : u ≠ "") (hf : o.fetch = .downloadError msg) :
    download_video (some u) o fs =
      (.serverError ("DownloadError: " ++ msg),
       rmtree o.tempDir (o.tempDir :: fs),
       [Event.mkdtemp o.tempDir, Event.providerCall,
        Event.rmtreeSync o.tempDir]) := by
  simp [download_video, download_with_ytdlp, hf, hu]

/-- Reduction of `download_video` on the path where the provider reports
success but the forced `.mp4` path is absent from the filesystem. -/
theorem download_video_fileMissing {u : String} {o : Oracles} {fs : FS}
    {prepared : PyStr} {written : List PyStr}
    (hu : u ≠ "") (hf : o.fetch = .ok prepared written)
    (hmiss : osPathExists (o.tempDir :: (fs ++ written)) (forceMp4 prepared)
      = false) :
    download_video (some u) o fs =
      (.serverError "File missing after download",
       rmtree o.tempDir (o.tempDir :: (fs ++ written)),
       [Event.mkdtemp o.tempDir, Event.providerCall,
        Event.rmtreeSync o.tempDir]) := by
  simp [download_video, download_with_ytdlp, hf, hu, fetchWritten, hmiss]

/-! ## Claims -/

/-- Claim C1, counterexample.  Concrete request
`{"url": "https://example.com/video2"}` on which yt-dlp (the only
provider in the code) exhausts all its retry attempts and raises
`DownloadError`: the handler returns a 500 error — the request fails —
and the trace shows exactly one provider invocation, so no
SecondaryProvider is invoked and no Artifact is returned from one. -/
theorem C1_counterexample :
    (download_video (some "https://example.com/video2")
        (Oracles.mk ("downloads/tmpw1".data)
          (FetchOutcome.downloadError "retries exhausted") none
          (fun _ => 0) (fun s => s)) []).1 =
      Resp.serverError "DownloadError: retries exhausted" ∧
    (download_video (some "https://example.com/video2")
        (Oracles.mk ("downloads/tmpw1".data)
          (FetchOutcome.downloadError "retries exhausted") none
          (fun _ => 0) (fun s => s)) []).2.2.count Event.providerCall = 1 :=
  ⟨rfl, rfl⟩

/-- Claim C1, amended.  When the primary (and only) provider exhausts all
of its retry attempts with transient errors, no second provider is
invoked: the handler returns a single structured `DownloadError` 500
response, the request fails, and the trace contains exactly one provider
invocation. -/
theorem C1_amended_no_fallback {u msg : String} {o : Oracles} {fs : FS}
    (hu : u ≠ "") (hf : o.fetch = FetchOutcome.downloadError msg) :
    (download_video (some u) o fs).1 =
      Resp.serverError ("DownloadError: " ++ msg) ∧
    (download_video (some u) o fs).2.2.count Event.providerCall = 1 := by
  rw [download_video_downloadError hu hf]
  exact ⟨rfl, rfl⟩

/-- Claim C1, witness for the amended theorem at a concrete input. -/
theorem C1_amended_witness :
    (download_video (some "https://example.com/video2")
        (Oracles.mk ("downloads/tmpw9".data)
          (FetchOutcome.downloadError "timeout") none
          (fun _ => 0) (fun s => s)) []).1 =
      Resp.serverError ("DownloadError: " ++ "timeout") ∧
    (download_video (some "https://example.com/video2")
        (Oracles.mk ("downloads/tmpw9".data)
          (FetchOutcome.downloadError "timeout") none
          (fun _ => 0) (fun s => s)) []).2.2.count Event.providerCall = 1 :=
  C1_amended_no_fallback (by decide) rfl

/-- Claim C2 (code bug).  The code arms the artifact's cleanup timer with
the fixed delay 15 taken from `schedule_delete(downloaded_file, delay=15)`
— a constant appearing in the success trace of `download_video` and
unrelated to any delivery duration — so a delivery lasting 16 time units
ends strictly after the artifact's cleanup fires: the file is deleted
while still being streamed. -/
theorem C2_fixed_delay_races_delivery :
    Event.scheduleTask ("downloads/tmpw2/v.mp4".data) 15 false ∈
      (download_video (some "https://example.com/v")
        (Oracles.mk ("downloads/tmpw2".data)
          (FetchOutcome.ok ("downloads/tmpw2/v.mp4".data)
            [("downloads/tmpw2/v.mp4".data)])
          (some "video/mp4") (fun _ => 5) (fun s => s)) []).2.2 ∧
    cleanupFireTime 0 15 < deliveryEndTime 0 16 := by
  exact ⟨by decide, by decide⟩

/-- Claim C3, counterexample.  Concrete run in which the provider reports
success but the declared output path (`clip.mp4`, forced from
`clip.webm`) does not exist on disk: the handler returns the 500
`"File missing after download"` error immediately to the caller, with
exactly one provider invocation — no fallback to a next provider. -/
theorem C3_counterexample :
    (download_video (some "https://example.com/video3")
        (Oracles.mk ("downloads/tmpw3".data)
          (FetchOutcome.ok ("downloads/tmpw3/clip.webm".data)
            [("downloads/tmpw3/clip.webm".data)])
          none (fun _ => 0) (fun s => s)) []).1 =
      Resp.serverError "File missing after download" ∧
    (download_video (some "https://example.com/video3")
        (Oracles.mk ("downloads/tmpw3".data)
          (FetchOutcome.ok ("downloads/tmpw3/clip.webm".data)
            [("downloads/tmpw3/clip.webm".data)])
          none (fun _ => 0) (fun s => s)) []).2.2.count
        Event.providerCall = 1 := by
  exact ⟨by decide, by decide⟩

/-- Claim C3, amended.  When the provider reports success but the
declared output path does not exist on disk, the handler removes the
workspace synchronously and returns the structured 500 error
`"File missing after download"` immediately to the caller; no further
provider is tried (the trace holds exactly one provider invocation). -/
theorem C3_amended_missing_file_is_final {u : String} {o : Oracles}
    {fs : FS} {prepared : PyStr} {written : List PyStr}
    (hu : u ≠ "") (hf : o.fetch = FetchOutcome.ok prepared written)
    (hmiss : osPathExists (o.tempDir :: (fs ++ written)) (forceMp4 prepared)
      = false) :
    (download_video (some u) o fs).1 =
      Resp.serverError "File missing after download" ∧
    o.tempDir ∉ (download_video (some u) o fs).2.1 ∧
    (download_video (some u) o fs).2.2.count Event.providerCall = 1 := by
  rw [download_video_fileMissing hu hf hmiss]
  exact ⟨rfl, not_mem_rmtree_self _ _, rfl⟩

/-- Claim C3, witness for the amended theorem at a concrete input. -/
theorem C3_amended_witness :
    (download_video (some "https://example.com/video3")
        (Oracles.mk ("downloads/tmpw4".data)
          (FetchOutcome.ok ("downloads/tmpw4/clip.webm".data)
            [("downloads/tmpw4/clip.webm".data)])
          none (fun _ => 0) (fun s => s)) []).1 =
      Resp.serverError "File missing after download" ∧
    ("downloads/tmpw4".data) ∉
      (download_video (some "https://example.com/video3")
        (Oracles.mk ("downloads/tmpw4".data)
          (FetchOutcome.ok ("downloads/tmpw4/clip.webm".data)
            [("downloads/tmpw4/clip.webm".data)])
          none (fun _ => 0) (fun s => s)) []).2.1 ∧
    (download_video (some "https://example.com/video3")
        (Oracles.mk ("downloads/tmpw4".data)
          (FetchOutcome.ok ("downloads/tmpw4/clip.webm".data)
            [("downloads/tmpw4/clip.webm".data)])
          none (fun _ => 0) (fun s => s)) []).2.2.count
        Event.providerCall = 1 :=
  C3_amended_missing_file_is_final (by decide) rfl (by decide)

/-- Claim C4.  When every provider attempt fails (yt-dlp raises
`DownloadError` after exhausting its retries), the call returns a single
structured 500 error, the workspace directory and everything inside it
are already gone from the filesystem at the moment of return, and no
deferred cleanup task was armed on this path. -/
theorem C4_total_failure_sync_cleanup {u msg : String} {o : Oracles}
    {fs : FS} (hu : u ≠ "") (hf : o.fetch = FetchOutcome.downloadError msg) :
    (download_video (some u) o fs).1 =
      Resp.serverError ("DownloadError: " ++ msg) ∧
    o.tempDir ∉ (download_video (some u) o fs).2.1 ∧
    (∀ p, underDir o.tempDir p = true →
      p ∉ (download_video (some u) o fs).2.1) ∧
    (download_video (some u) o fs).2.2.filter Event.isSchedule = [] := by
  rw [download_video_downloadError hu hf]
  refine ⟨rfl, not_mem_rmtree_self _ _, ?_, rfl⟩
  exact fun p hp => not_mem_rmtree_under _ hp

/-- Claim C4, witness at a concrete input. -/
theorem C4_witness :
    (download_video (some "https://example.com/video4")
        (Oracles.mk ("downloads/tmpw5".data)
          (FetchOutcome.downloadError "unreachable") none
          (fun _ => 0) (fun s => s)) [("downloads/tmpw5/part".data)]).1 =
      Resp.serverError ("DownloadError: " ++ "unreachable") ∧
    ("downloads/tmpw5".data) ∉
      (download_video (some "https://example.com/video4")
        (Oracles.mk ("downloads/tmpw5".data)
          (FetchOutcome.downloadError "unreachable") none
          (fun _ => 0) (fun s => s)) [("downloads/tmpw5/part".data)]).2.1 ∧
    (∀ p, underDir ("downloads/tmpw5".data) p = true →
      p ∉ (download_video (some "https://example.com/video4")
        (Oracles.mk ("downloads/tmpw5".data)
          (FetchOutcome.downloadError "unreachable") none
          (fun _ => 0) (fun s => s)) [("downloads/tmpw5/part".data)]).2.1) ∧
    (download_video (some "https://example.com/video4")
        (Oracles.mk ("downloads/tmpw5".data)
          (FetchOutcome.downloadError "unreachable") none
          (fun _ => 0) (fun s => s))
        [("downloads/tmpw5/part".data)]).2.2.filter Event.isSchedule = [] :=
  C4_total_failure_sync_cleanup (by decide) rfl

/-- Claim C5.  A request whose JSON body is missing (or lacks `url`) or
carries an empty `url` is answered with the 400 `badRequest` response
before any workspace is created: the filesystem is returned unchanged and
the event trace is empty (no `mkdtemp`). -/
theorem C5_invalid_url_leaves_fs_unchanged (req : Option String)
    (o : Oracles) (fs : FS) (h : req = none ∨ req = some "") :
    download_video req o fs =
      (Resp.badRequest "Missing field 'url' in JSON", fs, []) := by
  rcases h with h | h <;> subst h <;> simp [download_video]

/-- Claim C5, witness at the two concrete invalid inputs. -/
theorem C5_witness :
    download_video none
        (Oracles.mk ("downloads/tmpw6".data)
          (FetchOutcome.downloadError "never called") none
          (fun _ => 0) (fun s => s)) [("downloads/other".data)] =
      (Resp.badRequest "Missing field 'url' in JSON",
       [("downloads/other".data)], []) ∧
    download_video (some "")
        (Oracles.mk ("downloads/tmpw6".data)
          (FetchOutcome.downloadError "never called") none
          (fun _ => 0) (fun s => s)) [("downloads/other".data)] =
      (Resp.badRequest "Missing field 'url' in JSON",
       [("downloads/other".data)], []) :=
  ⟨C5_invalid_url_leaves_fs_unchanged none _ _ (Or.inl rfl),
   C5_invalid_url_leaves_fs_unchanged (some "") _ _ (Or.inr rfl)⟩

/-- Claim C6.  Whenever the handler returns a success (`fileResponse`)
for some request, the served artifact path exists in the filesystem at
the moment of return (the armed 15 s / 20 s timers have not fired). -/
theorem C6_success_file_exists {req : Option String} {o : Oracles}
    {fs : FS} {p n : PyStr} {m : String} {sf : PyStr} {sz : Nat}
    {xm : String}
    (h : (download_video req o fs).1 = Resp.fileResponse p n m sf sz xm) :
    osPathExists ((download_video req o fs).2.1) p = true := by
  obtain ⟨u, prepared, written, -, -, -, -, hex, -, -, -, -, hfs, -⟩ :=
    download_video_success_inv h
  rw [hfs]
  exact hex

/-- Claim C6, witness at a concrete successful request. -/
theorem C6_witness :
    osPathExists ((download_video (some "https://example.com/v6")
        (Oracles.mk ("downloads/tmpw7".data)
          (FetchOutcome.ok ("downloads/tmpw7/v.mp4".data)
            [("downloads/tmpw7/v.mp4".data)])
          (some "video/mp4") (fun _ => 9) (fun s => s)) []).2.1)
      ("downloads/tmpw7/v.mp4".data) = true :=
  @C6_success_file_exists (some "https://example.com/v6")
    (Oracles.mk ("downloads/tmpw7".data)
      (FetchOutcome.ok ("downloads/tmpw7/v.mp4".data)
        [("downloads/tmpw7/v.mp4".data)])
      (some "video/mp4") (fun _ => 9) (fun s => s)) []
    ("downloads/tmpw7/v.mp4".data) ("v.mp4".data) "video/mp4"
    ("v.mp4".data) 9 "video/mp4" (by decide)

/-- Claim C7.  On every successful request exactly two cleanup tasks are
armed — first the artifact file with delay 15, then the workspace
directory with delay 20 — the workspace delay is strictly longer
(15 < 20), and the metadata computation (size, MIME type, read from the
still-present file) occurs in the trace strictly before either task is
scheduled (positions 2 < 3 < 4). -/
theorem C7_two_cleanup_tasks {req : Option String} {o : Oracles} {fs : FS}
    {p n : PyStr} {m : String} {sf : PyStr} {sz : Nat} {xm : String}
    (h : (download_video req o fs).1 = Resp.fileResponse p n m sf sz xm) :
    (download_video req o fs).2.2.filter Event.isSchedule =
      [Event.scheduleTask p 15 false, Event.scheduleTask o.tempDir 20 true] ∧
    15 < 20 ∧
    (download_video req o fs).2.2[2]? = some (Event.computeMeta sz m) ∧
    (download_video req o fs).2.2[3]? = some (Event.scheduleTask p 15 false) ∧
    (download_video req o fs).2.2[4]? =
      some (Event.scheduleTask o.tempDir 20 true) := by
  obtain ⟨u, prepared, written, -, -, -, -, -, -, -, -, -, -, hev⟩ :=
    download_video_success_inv h
  rw [hev]
  refine ⟨?_, by norm_num, rfl, rfl, rfl⟩
  simp [Event.isSchedule]

/-- Claim C7, witness at a concrete successful request. -/
theorem C7_witness :
    (download_video (some "https://example.com/v7")
        (Oracles.mk ("downloads/tmpw8".data)
          (FetchOutcome.ok ("downloads/tmpw8/v.mp4".data)
            [("downloads/tmpw8/v.mp4".data)])
          (some "video/mp4") (fun _ => 9) (fun s => s)) []).2.2.filter
        Event.isSchedule =
      [Event.scheduleTask ("downloads/tmpw8/v.mp4".data) 15 false,
       Event.scheduleTask ("downloads/tmpw8".data) 20 true] ∧
    15 < 20 ∧
    (download_video (some "https://example.com/v7")
        (Oracles.mk ("downloads/tmpw8".data)
          (FetchOutcome.ok ("downloads/tmpw8/v.mp4".data)
            [("downloads/tmpw8/v.mp4".data)])
          (some "video/mp4") (fun _ => 9) (fun s => s)) []).2.2[2]? =
      some (Event.computeMeta 9 "video/mp4") ∧
    (download_video (some "https://example.com/v7")
        (Oracles.mk ("downloads/tmpw8".data)
          (FetchOutcome.ok ("downloads/tmpw8/v.mp4".data)
            [("downloads/tmpw8/v.mp4".data)])
          (some "video/mp4") (fun _ => 9) (fun s => s)) []).2.2[3]? =
      some (Event.scheduleTask ("downloads/tmpw8/v.mp4".data) 15 false) ∧
    (download_video (some "https://example.com/v7")
        (Oracles.mk ("downloads/tmpw8".data)
          (FetchOutcome.ok ("downloads/tmpw8/v.mp4".data)
            [("downloads/tmpw8/v.mp4".data)])
          (some "video/mp4") (fun _ => 9) (fun s => s)) []).2.2[4]? =
      some (Event.scheduleTask ("downloads/tmpw8".data) 20 true) :=
  @C7_two_cleanup_tasks (some "https://example.com/v7")
    (Oracles.mk ("downloads/tmpw8".data)
      (FetchOutcome.ok ("downloads/tmpw8/v.mp4".data)
        [("downloads/tmpw8/v.mp4".data)])
      (some "video/mp4") (fun _ => 9) (fun s => s)) []
    ("downloads/tmpw8/v.mp4".data) ("v.mp4".data) "video/mp4"
    ("v.mp4".data) 9 "video/mp4" (by decide)

/-- Claim C8.  For every armed cleanup task: `schedule_delete` returns
with the filesystem untouched (the deletion is deferred to the timer,
which starts unfired); any error raised inside the deletion body is
caught and turned into a `[CLEANUP ERROR]` log entry, never propagated;
and a timer that has fired once does nothing on any later firing — the
deletion fires at most once. -/
theorem C8_cleanup_one_shot (path : PyStr) (delay : Nat) (is_dir : Bool)
    (fs fs2 : FS) (failing : List PyStr) :
    (schedule_delete path delay is_dir fs).1 = fs ∧
    (schedule_delete path delay is_dir fs).2.fired = false ∧
    (∀ e, deleteBody failing is_dir path fs = .error e →
      deleteAction failing is_dir path fs =
        (fs, [LogEntry.cleanupError path e])) ∧
    fireTimer failing
        (fireTimer failing (schedule_delete path delay is_dir fs).2 fs).1
        fs2 =
      ((fireTimer failing (schedule_delete path delay is_dir fs).2 fs).1,
       fs2, []) := by
  refine ⟨rfl, rfl, ?_, rfl⟩
  intro e he
  unfold deleteAction
  rw [he]

/-- Claim C8, witness: a concrete file whose removal raises `OSError` —
the action returns normally with the error logged and the filesystem
unchanged — and a concrete `schedule_delete` call that leaves the
filesystem untouched. -/
theorem C8_witness :
    deleteAction [("downloads/w/f.mp4".data)] false
        ("downloads/w/f.mp4".data) [("downloads/w/f.mp4".data)] =
      ([("downloads/w/f.mp4".data)],
       [LogEntry.cleanupError ("downloads/w/f.mp4".data) "OSError"]) ∧
    (schedule_delete ("downloads/w/f.mp4".data) 15 false
        [("downloads/w/f.mp4".data)]).1 = [("downloads/w/f.mp4".data)] :=
  ⟨(C8_cleanup_one_shot ("downloads/w/f.mp4".data) 15 false
      [("downloads/w/f.mp4".data)] [] [("downloads/w/f.mp4".data)]).2.2.1
      "OSError" rfl,
   (C8_cleanup_one_shot ("downloads/w/f.mp4".data) 15 false
      [("downloads/w/f.mp4".data)] [] [("downloads/w/f.mp4".data)]).1⟩

/-- Claim C9.  Every normal return of `download_with_ytdlp` is a path
ending in `".mp4"`; when the `prepare_filename` result does not end in
`".mp4"` the returned path differs from it (the extension is rewritten in
the string, the file is untouched), so if the actual non-mp4 file is what
sits on disk and no `.mp4` twin exists, the subsequent existence check in
`download_video` fails with the 500 `"File missing after download"`. -/
theorem C9_forced_mp4_extension {u : String} {o : Oracles} {fs : FS}
    {prepared : PyStr} {written : List PyStr}
    (hu : u ≠ "") (hf : o.fetch = FetchOutcome.ok prepared written)
    (hnot : endswith prepared mp4ext = false)
    (hmiss : osPathExists (o.tempDir :: (fs ++ written)) (forceMp4 prepared)
      = false) :
    (∀ outcome p2, download_with_ytdlp outcome = .ok p2 →
      endswith p2 mp4ext = true) ∧
    download_with_ytdlp o.fetch = .ok (forceMp4 prepared) ∧
    forceMp4 prepared ≠ prepared ∧
    (download_video (some u) o fs).1 =
      Resp.serverError "File missing after download" := by
  refine ⟨?_, ?_, ?_, ?_⟩
  · intro outcome p2 h2
    cases outcome <;> simp [download_with_ytdlp] at h2
    rw [← h2]
    exact forceMp4_endswith _
  · simp [download_with_ytdlp, hf]
  · intro heq
    have hend := forceMp4_endswith prepared
    rw [heq, hnot] at hend
    exact Bool.false_ne_true hend
  · rw [download_video_fileMissing hu hf hmiss]

/-- Claim C9, witness: yt-dlp wrote `clip.webm`, the returned path is
`clip.mp4`, and the handler's existence check fails. -/
theorem C9_witness :
    (∀ outcome p2, download_with_ytdlp outcome = .ok p2 →
      endswith p2 mp4ext = true) ∧
    download_with_ytdlp
        (FetchOutcome.ok ("downloads/tmpw3/clip.webm".data)
          [("downloads/tmpw3/clip.webm".data)]) =
      .ok (forceMp4 ("downloads/tmpw3/clip.webm".data)) ∧
    forceMp4 ("downloads/tmpw3/clip.webm".data) ≠
      ("downloads/tmpw3/clip.webm".data) ∧
    (download_video (some "https://example.com/v9")
        (Oracles.mk ("downloads/tmpw3".data)
          (FetchOutcome.ok ("downloads/tmpw3/clip.webm".data)
            [("downloads/tmpw3/clip.webm".data)])
          none (fun _ => 0) (fun s => s)) []).1 =
      Resp.serverError "File missing after download" :=
  @C9_forced_mp4_extension "https://example.com/v9"
    (Oracles.mk ("downloads/tmpw3".data)
      (FetchOutcome.ok ("downloads/tmpw3/clip.webm".data)
        [("downloads/tmpw3/clip.webm".data)])
      none (fun _ => 0) (fun s => s))
    [] ("downloads/tmpw3/clip.webm".data)
    [("downloads/tmpw3/clip.webm".data)]
    (by decide) rfl (by decide) (by decide)

/-- Claim C10.  On every success response, the response `mimetype` and
the `X-Mime-Type` header are the same string, computed as
`guess or "application/octet-stream"`; when the filename yields no guess
the value is exactly `"application/octet-stream"`, and the header value
is never the empty string. -/
theorem C10_mime_default {req : Option String} {o : Oracles} {fs : FS}
    {p n : PyStr} {m : String} {sf : PyStr} {sz : Nat} {xm : String}
    (h : (download_video req o fs).1 = Resp.fileResponse p n m sf sz xm) :
    xm = m ∧ m = pyOrStr o.guess "application/octet-stream" ∧
    (o.guess = none → xm = "application/octet-stream") ∧
    xm ≠ "" := by
  obtain ⟨u, prepared, written, -, -, -, -, -, -, hm, hxm, -, -, -⟩ :=
    download_video_success_inv h
  subst hm
  subst hxm
  refine ⟨rfl, rfl, ?_, ?_⟩
  · intro hg
    rw [hg]
    rfl
  · exact pyOrStr_ne_empty _ (by decide)

/-- Claim C10, witness at a concrete request whose filename yields no
MIME guess. -/
theorem C10_witness :
    "application/octet-stream" = "application/octet-stream" ∧
    "application/octet-stream" =
      pyOrStr (Oracles.mk ("downloads/tmpwa".data)
          (FetchOutcome.ok ("downloads/tmpwa/v.mp4".data)
            [("downloads/tmpwa/v.mp4".data)])
          none (fun _ => 3) (fun s => s)).guess
        "application/octet-stream" ∧
    ((Oracles.mk ("downloads/tmpwa".data)
          (FetchOutcome.ok ("downloads/tmpwa/v.mp4".data)
            [("downloads/tmpwa/v.mp4".data)])
          none (fun _ => 3) (fun s => s)).guess = none →
      "application/octet-stream" = "application/octet-stream") ∧
    "application/octet-stream" ≠ "" :=
  @C10_mime_default (some "https://example.com/va")
    (Oracles.mk ("downloads/tmpwa".data)
      (FetchOutcome.ok ("downloads/tmpwa/v.mp4".data)
        [("downloads/tmpwa/v.mp4".data)])
      none (fun _ => 3) (fun s => s)) []
    ("downloads/tmpwa/v.mp4".data) ("v.mp4".data)
    "application/octet-stream" ("v.mp4".data) 3
    "application/octet-stream" (by decide)

end App
